import Mathlib

/-!
Verification development for the TechFo document-search application
(`src/app.py`).  The Flask routes `upload`, `index` (search),
`create_collection`, `clear_collection` and `view_collection` are embedded
as pure Lean functions over an explicit application state.  The external
services (MongoDB collection registry and GridFS blob store, Qdrant vector
store, Mistral embedding API, werkzeug filename sanitizer, langchain text
splitter, PyPDF2 extraction) are modelled as explicit state components or
abstract function parameters in `Env`, following the semantics of spec
sections 4.4 and 6 for the external stores.
-/

/-- A registry document in the `collections_meta` MongoDB collection:
`{name, description, created_at, docs_count}` (app.py lines 198-203). -/
structure RegistryEntry where
  name : String
  description : String
  created_at : Nat
  docs_count : Nat
deriving DecidableEq, Repr

/-- Payload attached to a vector point.  The Python payload is a dict; the
four keys ever written or read by app.py are `source`, `collection`,
`chunk` and `page_content`, each modelled as an `Option` so that a missing
key is `none`. -/
structure Payload where
  source : Option String
  collection : Option String
  chunk : Option String
  page_content : Option String
deriving DecidableEq, Repr

/-- A Qdrant point: `PointStruct(id=i, vector=vec, payload=payload)`
(app.py line 269). -/
structure VPoint where
  id : Nat
  vector : List Rat
  payload : Payload
deriving DecidableEq, Repr

/-- A raw Qdrant search hit: `{id, score, payload}` (spec section 4.4). -/
structure Hit where
  id : Nat
  score : Rat
  payload : Payload
deriving DecidableEq, Repr

/-- A search result row built by the `index` route (app.py lines 150-156
and 167-174). -/
structure SearchResult where
  score : Rat
  source : String
  collection : String
  chunk : String
deriving DecidableEq, Repr

/-- An uploaded file, as obtained from the request form. -/
structure UploadFile where
  filename : String
  content : List Nat
deriving DecidableEq, Repr

/-- The shared mutable state: the MongoDB registry (`collections_meta`),
the GridFS blob store (filename, collection kwarg, bytes), and the Qdrant
vector store (collection name to stored points). -/
structure AppState where
  registry : List RegistryEntry
  gridfs : List (String × String × List Nat)
  vstore : List (String × List VPoint)
deriving DecidableEq, Repr

/-- What a route invocation produces towards the caller: either a flashed
message with its category (the route handled the condition and responded),
or an exception that propagates uncaught out of the route. -/
inductive RouteAction where
  | flash (msg : String) (category : String)
  | uncaught (e : String)
deriving DecidableEq, Repr

/-- External capabilities, dependency-injected (spec section 9):
filename sanitizer (werkzeug `secure_filename`), PDF text extraction
(PyPDF2, best effort per spec section 4.2), UTF-8 decoding (fallible),
text splitter (langchain `RecursiveCharacterTextSplitter.split_text` at
chunk_size 1000 / overlap 200), batched embedding (`get_embeddings`,
fallible), and the similarity scoring the vector store applies. -/
structure Env where
  securefn : String → String
  extractPdf : List Nat → String
  decodeUtf8 : List Nat → Option String
  splitText : String → List String
  embed : List String → Except String (List (List Rat))
  score : List Rat → List Rat → Rat

/-- The constant `ALLOWED_EXTENSIONS`, holding pdf and txt
(app.py line 45). -/
def ALLOWED_EXTENSIONS : List String := ["pdf", "txt"]

/-- ASCII lowercasing of one character (`str.lower`). -/
def lowerChar (c : Char) : Char :=
  if c.isUpper then Char.ofNat (c.toNat + 32) else c

/-- The characters after the last `'.'` of the list, or `none` when there
is no dot: `filename.rsplit('.', 1)[1]` guarded by `'.' in filename`. -/
def afterLastDot : List Char → Option (List Char)
  | [] => none
  | ch :: rest =>
      match afterLastDot rest with
      | some suf => some suf
      | none => if ch = '.' then some rest else none

/-- The helper `allowed_file` (app.py lines 90-91): the filename must
contain a dot and the lowercased segment after the last dot must be one
of the allowed extensions. -/
def allowed_file (filename : String) : Bool :=
  match afterLastDot filename.data with
  | none => false
  | some ext => ALLOWED_EXTENSIONS.contains (String.mk (ext.map lowerChar))

/-- The check that the lowercased filename ends with the pdf suffix:
its last four characters, lowercased, are dot, p, d, f. -/
def endsWithDotPdf (filename : String) : Bool :=
  (filename.data.map lowerChar).reverse.take 4 == ['f', 'd', 'p', '.']

/-- Python falsiness of an optional form value: `None` or the empty
string. -/
def falsy : Option String → Bool
  | none => true
  | some s => s == ""

/-- A character stripped by Python `str.strip()`. -/
def isSpaceChar (c : Char) : Bool :=
  c == ' ' || c == '\t' || c == '\n' || c == '\r' || c == '\x0b' || c == '\x0c'

/-- The blank-text check of `upload` (the stripped text is falsy): true
iff the text is empty or all whitespace. -/
def isBlank (t : String) : Bool :=
  t.data.all isSpaceChar

/-- Model of the registry lookup find_one by name on `collections_meta`:
the first registry document with the given name. -/
def findMeta (reg : List RegistryEntry) (n : String) : Option RegistryEntry :=
  reg.find? (fun e => e.name == n)

/-- Model of the registry mutation update_one by name on
`collections_meta`: apply the update to the first matching document,
leave the rest unchanged; no match means no mutation. -/
def updateFirst (f : RegistryEntry → RegistryEntry) (n : String) :
    List RegistryEntry → List RegistryEntry
  | [] => []
  | e :: es => if e.name == n then f e :: es else e :: updateFirst f n es

/-- Look up a collection in the vector store. -/
def vsLookup (vs : List (String × List VPoint)) (n : String) : Option (List VPoint) :=
  (vs.find? (fun b => b.1 == n)).map (fun b => b.2)

/-- Replace the points of an existing collection binding (first binding
with the name). -/
def vsSet (n : String) (pts : List VPoint) :
    List (String × List VPoint) → List (String × List VPoint)
  | [] => []
  | b :: bs => if b.1 == n then (n, pts) :: bs else b :: vsSet n pts bs

/-- Replace the points of a collection, creating the binding if absent
(used by `recreate_collection`, which creates or wipes). -/
def vsSetOrAdd (vs : List (String × List VPoint)) (n : String) (pts : List VPoint) :
    List (String × List VPoint) :=
  match vsLookup vs n with
  | some _ => vsSet n pts vs
  | none => vs ++ [(n, pts)]

/-- Qdrant upsert semantics (spec section 4.4): last-write-wins per id
within the collection; new ids are appended. -/
def upsertPoints (old new : List VPoint) : List VPoint :=
  new.foldl (fun acc p => acc.filter (fun q => q.id ≠ p.id) ++ [p]) old

/-- Stable descending insertion for `sortDescBy`: the new element goes
after every already-placed element whose key is at least as large. -/
def insertDesc (key : α → Rat) (x : α) : List α → List α
  | [] => [x]
  | y :: ys => if key x ≤ key y then y :: insertDesc key x ys else x :: y :: ys

/-- Stable sort by descending key, modelling Python
`sorted(..., key=..., reverse=True)` (and the descending score order the
vector store returns): elements with equal keys keep their relative
order. -/
def sortDescBy (key : α → Rat) (l : List α) : List α :=
  l.foldl (fun acc x => insertDesc key x acc) []

/-- The vector-store search call of `qdrant_client` modelled per spec
section 4.4: it raises when the collection does not exist, otherwise
returns the stored points scored against the query, in descending score
order, truncated to `limit`. -/
def qdrantSearch (env : Env) (vs : List (String × List VPoint)) (cname : String)
    (qv : List Rat) (lim : Nat) : Except String (List Hit) :=
  match vsLookup vs cname with
  | none => .error ("collection not found: " ++ cname)
  | some pts =>
      .ok ((sortDescBy (fun h => h.score)
              (pts.map (fun p => ⟨p.id, env.score qv p.vector, p.payload⟩))).take lim)

/-- The point-building loop of `upload` (app.py lines 265-269):
`for i, vec in enumerate(vectors)` builds `PointStruct(id=i, vector=vec,
a payload holding the source filename, the collection name, and the
chunk text under both the chunk and the page_content keys; indexing the
documents list past the end is an IndexError (`none`). -/
def build_points (cname filename : String) (docs : List String) :
    List (List Rat) → Nat → Option (List VPoint)
  | [], _ => some []
  | v :: vs, i =>
      match docs.get? i with
      | none => none
      | some t =>
          match build_points cname filename docs vs (i + 1) with
          | none => none
          | some rest =>
              some ({ id := i, vector := v,
                      payload := { source := some filename, collection := some cname,
                                   chunk := some t, page_content := some t } } :: rest)

/-- The text-extraction step of `upload` (app.py lines 246-253): PDF files
go through `extract_text_from_pdf` (total, best effort), everything else
through UTF-8 decoding, which fails (`none`) on invalid bytes. -/
def extract_text (env : Env) (filename : String) (content : List Nat) : Option String :=
  if endsWithDotPdf filename then some (env.extractPdf content)
  else env.decodeUtf8 content

/-- Full outcome of the `upload` route: the response or uncaught exception,
the resulting state, and how many embedding / text-extraction calls were
performed on the way. -/
structure UploadOut where
  action : RouteAction
  state : AppState
  embedCalls : Nat
  extractCalls : Nat
deriving DecidableEq, Repr

/-- The `upload` route, POST branch (app.py lines 217-276), step for step:
missing-file check, missing-collection check, `allowed_file` check,
`secure_filename`, GridFS put (and immediate read-back), text extraction,
blank-text check, split, batched embedding, point building, Qdrant upsert
(raises when the collection does not exist in the vector store), and the
`$inc` of `docs_count` on the registry.  There is no try/except in this
route: extraction, embedding and upsert failures propagate uncaught. -/
def upload (env : Env) (s : AppState) (file : Option UploadFile)
    (collection_name : Option String) : UploadOut :=
  match file with
  | none => ⟨.flash ("No file selected") ("danger"), s, 0, 0⟩
  | some f =>
      if f.filename == "" then ⟨.flash ("No file selected") ("danger"), s, 0, 0⟩
      else match collection_name with
      | none => ⟨.flash ("Select a collection") ("danger"), s, 0, 0⟩
      | some c =>
          if c == "" then ⟨.flash ("Select a collection") ("danger"), s, 0, 0⟩
          else if !allowed_file f.filename then
            ⟨.flash ("File type not allowed") ("danger"), s, 0, 0⟩
          else
            let filename := env.securefn f.filename
            let s1 : AppState := { s with gridfs := s.gridfs ++ [(filename, c, f.content)] }
            match extract_text env filename f.content with
            | none => ⟨.uncaught ("UnicodeDecodeError"), s1, 0, 1⟩
            | some text =>
                if isBlank text then
                  ⟨.flash ("No text extracted from file") ("warning"), s1, 0, 1⟩
                else
                  let docs := env.splitText text
                  match env.embed docs with
                  | .error e => ⟨.uncaught e, s1, 1, 1⟩
                  | .ok vectors =>
                      match build_points c filename docs vectors 0 with
                      | none => ⟨.uncaught ("IndexError"), s1, 1, 1⟩
                      | some points =>
                          match vsLookup s1.vstore c with
                          | none => ⟨.uncaught ("qdrant: collection not found"), s1, 1, 1⟩
                          | some old =>
                              let s2 : AppState :=
                                { s1 with vstore := vsSet c (upsertPoints old points) s1.vstore }
                              let inc := fun e : RegistryEntry =>
                                { e with docs_count := e.docs_count + docs.length }
                              let s3 : AppState :=
                                { s2 with registry := updateFirst inc c s2.registry }
                              ⟨.flash ("Uploaded and indexed " ++ toString docs.length ++
                                        " chunks to collection " ++ c) ("success"), s3, 1, 1⟩

/-- The `clear_collection` route (app.py lines 103-117): inside one
try/except, delete all points of the collection (raises when the
collection does not exist in the vector store, in which case the registry
update is never reached) and set `docs_count` to 0 on the registry; any
failure is caught and flashed. -/
def clear_collection (s : AppState) (collection_name : String) : RouteAction × AppState :=
  match vsLookup s.vstore collection_name with
  | none => (.flash ("Failed to clear collection") ("danger"), s)
  | some _ =>
      let s1 : AppState := { s with vstore := vsSet collection_name [] s.vstore }
      let zero := fun e : RegistryEntry => { e with docs_count := 0 }
      let s2 : AppState :=
        { s1 with registry := updateFirst zero collection_name s1.registry }
      (.flash ("Cleared all data in collection " ++ collection_name) ("success"), s2)

/-- The `create_collection` route (app.py lines 184-215): falsy-name
check; if a registry document with that name already exists, return early
with a warning and change nothing; otherwise insert the registry document
and `recreate_collection` on Qdrant (create-or-wipe, size 1024), whose
failure would only be printed. -/
def create_collection (s : AppState) (name description : Option String) (now : Nat) :
    RouteAction × AppState :=
  if falsy name then (.flash ("Collection name required") ("danger"), s)
  else
    let n := name.getD ("")
    match findMeta s.registry n with
    | some _ => (.flash ("Collection already exists") ("warning"), s)
    | none =>
        let s1 : AppState :=
          { s with registry := s.registry ++
              [{ name := n, description := description.getD (""), created_at := now,
                 docs_count := 0 }] }
        let s2 : AppState := { s1 with vstore := vsSetOrAdd s1.vstore n [] }
        (.flash ("Collection " ++ n ++ " created") ("success"), s2)

/-- Map a raw hit to a result row (app.py lines 150-156 / 167-174).
the source field defaults to N/A when missing; the collection field
defaults to the argument `d`, which is the collection being searched in
all-collections mode and N/A in single mode; the chunk field is the
payload chunk value when present and truthy, otherwise the page_content
value, with N/A appearing only when page_content is missing too. -/
def hit_to_result (d : String) (r : Hit) : SearchResult :=
  { score := r.score
    source := (r.payload.source).getD ("N/A")
    collection := (r.payload.collection).getD d
    chunk :=
      match r.payload.chunk with
      | some s => if s == "" then (r.payload.page_content).getD ("N/A") else s
      | none => (r.payload.page_content).getD ("N/A") }

/-- The all-collections fan-out body (app.py lines 142-158): for each
registered collection, search it with limit 5 inside a try/except whose
except branch is `continue` — a failing collection contributes no
results and does not abort the loop. -/
def all_search_raw (env : Env) (vs : List (String × List VPoint))
    (cols : List RegistryEntry) (qv : List Rat) : List SearchResult :=
  cols.flatMap (fun c =>
    match qdrantSearch env vs c.name qv 5 with
    | .error _ => []
    | .ok hits => hits.map (hit_to_result c.name))

/-- Outcome of the search part of the `index` route. -/
inductive SearchOutcome where
  | noSearch
  | results (rs : List SearchResult)
  | flashErr (msg : String)
  | uncaught (e : String)
deriving DecidableEq, Repr

/-- Outcome of `index` together with the number of embedding calls made. -/
structure SearchOut where
  outcome : SearchOutcome
  embedCalls : Nat
deriving DecidableEq, Repr

/-- The POST-search part of the `index` route (app.py lines 134-176).
Both form values must be truthy; the query is embedded ONCE, OUTSIDE the
try block (`query_vec = get_embeddings([search_query])[0]`), so an
embedding failure (or an empty embedding response, an IndexError)
propagates uncaught.  Sentinel `"__all__"` selects the fan-out over all
registered collections, merged, sorted by descending score and truncated
to 10; otherwise a single search with limit 10 whose failure is caught by
the outer try and flashed. -/
def index (env : Env) (s : AppState) (search_query search_collection : Option String) :
    SearchOut :=
  match search_query, search_collection with
  | some q, some sel =>
      if q == "" || sel == "" then ⟨.noSearch, 0⟩
      else
        match env.embed [q] with
        | .error e => ⟨.uncaught e, 1⟩
        | .ok [] => ⟨.uncaught ("IndexError"), 1⟩
        | .ok (qv :: _) =>
            if sel == "__all__" then
              ⟨.results ((sortDescBy (fun r => r.score)
                  (all_search_raw env s.vstore s.registry qv)).take 10), 1⟩
            else
              match qdrantSearch env s.vstore sel qv 10 with
              | .error e => ⟨.flashErr ("Search error: " ++ e), 1⟩
              | .ok hits => ⟨.results (hits.map (hit_to_result ("N/A"))), 1⟩
  | _, _ => ⟨.noSearch, 0⟩

/-- The point listing of `view_collection` (app.py lines 279-288):
`qdrant_client.scroll(collection_name, limit=20)` inside a try/except
whose failure path yields the empty list. -/
def view_collection_points (s : AppState) (cname : String) : List VPoint :=
  match vsLookup s.vstore cname with
  | none => []
  | some pts => pts.take 20

/-! Concrete environments and states used by witnesses and
counterexamples. -/

/-- A concrete environment: identity sanitizer, byte-driven decoding
(byte 255 is invalid UTF-8, `[1]` decodes to a two-chunk text, `[2]` to a
one-chunk text), a splitter that cuts at the two-chunk text, an embedding
service returning the constant vector `[1]`, and scoring by the first
coordinate of the stored vector. -/
def envW : Env :=
  { securefn := fun s => s
    extractPdf := fun _ => "pdf text"
    decodeUtf8 := fun bs =>
      if bs.contains 255 then none
      else if bs == [1] then some ("AB")
      else if bs == [2] then some ("C")
      else some ("hi")
    splitText := fun t => if t == "AB" then ["A", "B"] else [t]
    embed := fun ts => .ok (ts.map (fun _ => [(1 : Rat)]))
    score := fun _ v => v.headD 0 }

/-- Environment `envW` with the embedding service failing. -/
def envEmbedDown : Env :=
  { envW with embed := fun _ => .error ("embed down") }

/-- A registry entry with the given name and count. -/
def regEntry (n : String) (k : Nat) : RegistryEntry :=
  ⟨n, "", 0, k⟩

/-- A state with one registered, empty collection `docs`. -/
def sW : AppState := ⟨[regEntry ("docs") 0], [], [("docs", [])]⟩

/-- A state whose vector store has a collection `ghost` that is NOT in
the registry. -/
def sGhost : AppState := ⟨[], [], [("ghost", [])]⟩

/-- A stored point with id 0, vector `[1]` and a fully-populated payload,
belonging to collection `docs`. -/
def pt0 : VPoint :=
  ⟨0, [1], ⟨some ("old.txt"), some ("docs"), some ("old chunk"), some ("old chunk")⟩⟩

/-- A state where `docs` is registered with `docs_count = 3` and holds
one vector point. -/
def sDocs1 : AppState := ⟨[regEntry ("docs") 3], [], [("docs", [pt0])]⟩

/-- A legacy payload: `chunk` missing, `page_content` present. -/
def legacyPayload : Payload :=
  ⟨some ("f.txt"), some ("legacy"), none, some ("old text")⟩

/-- A state with a registered collection `legacy` holding one point whose
payload has no `chunk` key. -/
def sLegacy : AppState :=
  ⟨[regEntry ("legacy") 1], [], [("legacy", [⟨0, [1], legacyPayload⟩])]⟩

/-- Three registered collections for the fan-out witness: `a` (two
points, scores 3 and 1), `b` (one point, score 2), and `gone`, which is
registered but missing from the vector store, so its search fails. -/
def sFanout : AppState :=
  ⟨[regEntry ("a") 2, regEntry ("b") 1, regEntry ("gone") 0], [],
   [("a", [⟨0, [3], ⟨some ("fa"), some ("a"), some ("ca"), some ("ca")⟩⟩,
           ⟨1, [1], ⟨some ("fa"), some ("a"), some ("cb"), some ("cb")⟩⟩]),
    ("b", [⟨0, [2], ⟨some ("fb"), some ("b"), some ("cc"), some ("cc")⟩⟩])]⟩

/-- Whether the per-collection search of the fan-out succeeds for a given
collection. -/
def searchOk (env : Env) (vs : List (String × List VPoint)) (qv : List Rat)
    (c : RegistryEntry) : Bool :=
  match qdrantSearch env vs c.name qv 5 with
  | .ok _ => true
  | .error _ => false

/-! Helper lemmas about the registry, the vector store, point building
and the stable descending sort. -/

theorem updateFirst_not_found (f : RegistryEntry → RegistryEntry) (n : String)
    (reg : List RegistryEntry) (h : findMeta reg n = none) :
    updateFirst f n reg = reg := by
  induction reg with
  | nil => rfl
  | cons e es ih =>
    by_cases he : (e.name == n) = true
    · exfalso
      simp only [findMeta, List.find?, he] at h
      cases h
    · simp only [findMeta, List.find?, Bool.not_eq_true] at h ih
      rw [Bool.not_eq_true] at he
      rw [he] at h
      simp only [updateFirst, he, Bool.false_eq_true, if_false]
      rw [ih h]

theorem findMeta_updateFirst (f : RegistryEntry → RegistryEntry) (n : String)
    (hf : ∀ e, (f e).name = e.name) (reg : List RegistryEntry) :
    findMeta (updateFirst f n reg) n = (findMeta reg n).map f := by
  induction reg with
  | nil => rfl
  | cons e es ih =>
    by_cases he : (e.name == n) = true
    · have hfe : ((f e).name == n) = true := by
        rw [hf e]
        exact he
      simp only [updateFirst, he, if_true, findMeta, List.find?, hfe]
      rfl
    · rw [Bool.not_eq_true] at he
      have hfe : ((f e).name == n) = false := by
        rw [hf e]
        exact he
      simp only [updateFirst, he, Bool.false_eq_true, if_false, findMeta,
        List.find?, hfe]
      exact ih

theorem vsLookup_vsSet_self (n : String) (pts : List VPoint)
    (vs : List (String × List VPoint)) (h : (vsLookup vs n).isSome) :
    vsLookup (vsSet n pts vs) n = some pts := by
  induction vs with
  | nil => simp [vsLookup] at h
  | cons b bs ih =>
    by_cases hb : (b.1 == n) = true
    · simp only [vsSet, hb, if_true]
      simp [vsLookup, List.find?]
    · rw [Bool.not_eq_true] at hb
      simp only [vsSet, hb, Bool.false_eq_true, if_false, vsLookup, List.find?]
      simp only [vsLookup, List.find?, hb] at h
      exact ih h

theorem vsLookup_vsSetOrAdd_self (vs : List (String × List VPoint)) (n : String)
    (pts : List VPoint) : vsLookup (vsSetOrAdd vs n pts) n = some pts := by
  cases hv : vsLookup vs n with
  | some old =>
    rw [vsSetOrAdd, hv]
    exact vsLookup_vsSet_self n pts vs (by simp [hv])
  | none =>
    rw [vsSetOrAdd, hv]
    rw [vsLookup] at hv ⊢
    rw [List.find?_append]
    cases hfind : vs.find? (fun b => b.1 == n) with
    | some b => rw [hfind] at hv; cases hv
    | none => simp [List.find?]

theorem mem_insertDesc {α : Type} (key : α → Rat) (x : α) (l : List α) (z : α)
    (h : z ∈ insertDesc key x l) : z = x ∨ z ∈ l := by
  induction l with
  | nil => simpa [insertDesc] using h
  | cons y ys ih =>
    rw [insertDesc] at h
    by_cases hc : key x ≤ key y
    · rw [if_pos hc] at h
      rcases List.mem_cons.mp h with h1 | h2
      · exact Or.inr (h1 ▸ List.mem_cons_self y ys)
      · rcases ih h2 with h3 | h4
        · exact Or.inl h3
        · exact Or.inr (List.mem_cons_of_mem y h4)
    · rw [if_neg hc] at h
      rcases List.mem_cons.mp h with h1 | h2
      · exact Or.inl h1
      · exact Or.inr h2

theorem pairwise_insertDesc {α : Type} (key : α → Rat) (x : α) (l : List α)
    (h : l.Pairwise (fun a b => key b ≤ key a)) :
    (insertDesc key x l).Pairwise (fun a b => key b ≤ key a) := by
  induction l with
  | nil => simp [insertDesc]
  | cons y ys ih =>
    rcases List.pairwise_cons.mp h with ⟨hy, hys⟩
    rw [insertDesc]
    by_cases hc : key x ≤ key y
    · rw [if_pos hc]
      refine List.pairwise_cons.mpr ⟨?_, ih hys⟩
      intro z hz
      rcases mem_insertDesc key x ys z hz with h1 | h2
      · exact h1 ▸ hc
      · exact hy z h2
    · rw [if_neg hc]
      have hyx : key y ≤ key x := le_of_not_le hc
      refine List.pairwise_cons.mpr ⟨?_, h⟩
      intro z hz
      rcases List.mem_cons.mp hz with h1 | h2
      · exact h1 ▸ hyx
      · exact le_trans (hy z h2) hyx

theorem foldl_insertDesc_pairwise {α : Type} (key : α → Rat) :
    ∀ (l acc : List α), acc.Pairwise (fun a b => key b ≤ key a) →
      (l.foldl (fun acc x => insertDesc key x acc) acc).Pairwise
        (fun a b => key b ≤ key a)
  | [], _, h => h
  | x :: xs, acc, h =>
      foldl_insertDesc_pairwise key xs (insertDesc key x acc)
        (pairwise_insertDesc key x acc h)

theorem pairwise_sortDescBy {α : Type} (key : α → Rat) (l : List α) :
    (sortDescBy key l).Pairwise (fun a b => key b ≤ key a) :=
  foldl_insertDesc_pairwise key l [] (List.Pairwise.nil)

theorem build_points_ids (c fn : String) (docs : List String) :
    ∀ (vectors : List (List Rat)) (i : Nat) (pts : List VPoint),
      build_points c fn docs vectors i = some pts →
      pts.map (fun p => p.id) = List.range' i vectors.length := by
  intro vectors
  induction vectors with
  | nil =>
    intro i pts h
    rw [build_points] at h
    cases h
    rfl
  | cons v vs ih =>
    intro i pts h
    rw [build_points] at h
    cases hd : docs.get? i with
    | none => rw [hd] at h; cases h
    | some t =>
      rw [hd] at h
      cases hr : build_points c fn docs vs (i + 1) with
      | none => rw [hr] at h; cases h
      | some rest =>
        rw [hr] at h
        cases h
        rw [List.map_cons, ih (i + 1) rest hr]
        rfl

theorem build_points_payload (c fn : String) (docs : List String) :
    ∀ (vectors : List (List Rat)) (i : Nat) (pts : List VPoint),
      build_points c fn docs vectors i = some pts →
      ∀ p ∈ pts, ∃ t, t ∈ docs ∧
        p.payload = { source := some fn, collection := some c,
                      chunk := some t, page_content := some t } := by
  intro vectors
  induction vectors with
  | nil =>
    intro i pts h p hp
    rw [build_points] at h
    cases h
    cases hp
  | cons v vs ih =>
    intro i pts h p hp
    rw [build_points] at h
    cases hd : docs.get? i with
    | none => rw [hd] at h; cases h
    | some t =>
      rw [hd] at h
      cases hr : build_points c fn docs vs (i + 1) with
      | none => rw [hr] at h; cases h
      | some rest =>
        rw [hr] at h
        cases h
        rcases List.mem_cons.mp hp with h1 | h2
        · exact ⟨t, List.get?_mem hd, by rw [h1]⟩
        · exact ih (i + 1) rest hr p h2

theorem qdrantSearch_length_le (env : Env) (vs : List (String × List VPoint))
    (cname : String) (qv : List Rat) (lim : Nat) (hits : List Hit)
    (h : qdrantSearch env vs cname qv lim = .ok hits) : hits.length ≤ lim := by
  rw [qdrantSearch] at h
  cases hv : vsLookup vs cname with
  | none => rw [hv] at h; cases h
  | some pts =>
    rw [hv] at h
    cases h
    exact List.length_take_le lim _

theorem all_search_raw_filter_ok (env : Env) (vs : List (String × List VPoint))
    (qv : List Rat) (cols : List RegistryEntry) :
    all_search_raw env vs cols qv =
      all_search_raw env vs (cols.filter (searchOk env vs qv)) qv := by
  induction cols with
  | nil => rfl
  | cons c cs ih =>
    cases hq : qdrantSearch env vs c.name qv 5 with
    | error e =>
      have hok : searchOk env vs qv c = false := by rw [searchOk, hq]
      simp only [all_search_raw, List.flatMap_cons, List.filter_cons, hok,
        Bool.false_eq_true, if_false, hq] at ih ⊢
      simpa using ih
    | ok hits =>
      have hok : searchOk env vs qv c = true := by rw [searchOk, hq]
      simp only [all_search_raw, List.flatMap_cons, List.filter_cons, hok,
        if_true, hq] at ih ⊢
      rw [ih]

/-! Claim theorems. -/

/-- C9: for every upload whose filename has an extension (there is a dot)
outside the allowed set {pdf, txt}, the upload is rejected with a flashed
danger message before any text-extraction or embedding call occurs, and
the whole state — blob store, vector index and registry — is unchanged. -/
theorem C9_bad_extension_rejected (env : Env) (s : AppState) (f : UploadFile)
    (copt : Option String)
    (hext : (afterLastDot f.filename.data).map
        (fun ext => ALLOWED_EXTENSIONS.contains (String.mk (ext.map lowerChar))) =
      some false) :
    (upload env s (some f) copt).state = s ∧
    (upload env s (some f) copt).embedCalls = 0 ∧
    (upload env s (some f) copt).extractCalls = 0 ∧
    ∃ msg, (upload env s (some f) copt).action = RouteAction.flash msg ("danger") := by
  have hall : allowed_file f.filename = false := by
    cases hd : afterLastDot f.filename.data with
    | none => rw [hd] at hext; cases hext
    | some ext =>
      rw [hd] at hext
      rw [allowed_file, hd]
      simpa using hext
  by_cases hf0 : (f.filename == "") = true
  · simp [upload, hf0]
  · rw [Bool.not_eq_true] at hf0
    cases copt with
    | none => simp [upload, hf0]
    | some c =>
      by_cases hc : (c == "") = true
      · simp [upload, hf0, hc]
      · rw [Bool.not_eq_true] at hc
        simp [upload, hf0, hc, hall]

/-- Witness for C9: uploading `x.exe` into the registered collection
`docs` leaves the state unchanged, makes no extraction or embedding call,
and flashes a danger message. -/
theorem C9_bad_extension_rejected_witness :
    (upload envW sW (some ⟨"x.exe", [1]⟩) (some ("docs"))).state = sW ∧
    (upload envW sW (some ⟨"x.exe", [1]⟩) (some ("docs"))).embedCalls = 0 ∧
    (upload envW sW (some ⟨"x.exe", [1]⟩) (some ("docs"))).extractCalls = 0 ∧
    ∃ msg, (upload envW sW (some ⟨"x.exe", [1]⟩) (some ("docs"))).action =
      RouteAction.flash msg ("danger") :=
  C9_bad_extension_rejected envW sW ⟨"x.exe", [1]⟩ (some ("docs")) (by decide)

/-- C1 (amended): the upload pipeline validates only that a collection
name was provided (non-empty); it performs no registry-existence check.
For a non-empty collection name absent from the registry, the upload is
never rejected with the collection-selection message — the pipeline
proceeds (see `C1_counterexample`) — and the registry is never mutated,
because the `docs_count` increment matches no registry document. -/
theorem C1_amended_no_registry_check (env : Env) (s : AppState)
    (file : Option UploadFile) (c : String) (hc : (c == "") = false)
    (hreg : findMeta s.registry c = none) :
    (upload env s file (some c)).state.registry = s.registry ∧
    (upload env s file (some c)).action ≠
      RouteAction.flash ("Select a collection") ("danger") := by
  cases file with
  | none =>
    simp only [upload]
    exact ⟨by simp, by decide⟩
  | some f =>
    by_cases hf0 : (f.filename == "") = true
    · simp only [upload, hf0, if_true]
      exact ⟨by simp, by decide⟩
    · rw [Bool.not_eq_true] at hf0
      by_cases hall : allowed_file f.filename = true
      · simp only [upload, hf0, Bool.false_eq_true, if_false, hc, hall,
          Bool.not_true]
        cases hex : extract_text env (env.securefn f.filename) f.content with
        | none =>
          simp only
          exact ⟨by simp, by intro h; cases h⟩
        | some text =>
          by_cases hbl : isBlank text = true
          · simp only [hbl, if_true]
            exact ⟨by simp, by decide⟩
          · rw [Bool.not_eq_true] at hbl
            simp only [hbl, Bool.false_eq_true, if_false]
            cases hem : env.embed (env.splitText text) with
            | error e =>
              simp only
              exact ⟨by simp, by intro h; cases h⟩
            | ok vectors =>
              simp only
              cases hbp : build_points c (env.securefn f.filename)
                  (env.splitText text) vectors 0 with
              | none =>
                simp only
                exact ⟨by simp, by intro h; cases h⟩
              | some points =>
                simp only
                cases hv : vsLookup s.vstore c with
                | none =>
                  simp only
                  exact ⟨by simp, by intro h; cases h⟩
                | some old =>
                  simp only
                  refine ⟨updateFirst_not_found _ c s.registry hreg, ?_⟩
                  intro h
                  injection h with h1 h2
                  exact absurd h2 (by decide)
      · rw [Bool.not_eq_true] at hall
        simp only [upload, hf0, Bool.false_eq_true, if_false, hc, hall,
          Bool.not_false, if_true]
        exact ⟨by simp, by decide⟩

/-- C1 counterexample: `ghost` is not in the registry, yet the upload is
not rejected with `UnknownCollectionError`-style behaviour: extraction and
embedding are each called once, the index write happens (the point lands
in the vector store), and the route reports success. -/
theorem C1_counterexample :
    findMeta sGhost.registry ("ghost") = none ∧
    (upload envW sGhost (some ⟨"a.txt", [3]⟩) (some ("ghost"))).action =
      RouteAction.flash ("Uploaded and indexed 1 chunks to collection ghost")
        ("success") ∧
    (upload envW sGhost (some ⟨"a.txt", [3]⟩) (some ("ghost"))).embedCalls = 1 ∧
    (upload envW sGhost (some ⟨"a.txt", [3]⟩) (some ("ghost"))).extractCalls = 1 ∧
    vsLookup (upload envW sGhost (some ⟨"a.txt", [3]⟩)
        (some ("ghost"))).state.vstore ("ghost") =
      some [⟨0, [1], ⟨some ("a.txt"), some ("ghost"), some ("hi"), some ("hi")⟩⟩] := by
  decide

/-- Witness for the amended C1 at a concrete unregistered collection. -/
theorem C1_amended_witness :
    (upload envW sGhost (some ⟨"a.txt", [3]⟩) (some ("ghost"))).state.registry =
      sGhost.registry ∧
    (upload envW sGhost (some ⟨"a.txt", [3]⟩) (some ("ghost"))).action ≠
      RouteAction.flash ("Select a collection") ("danger") :=
  C1_amended_no_registry_check envW sGhost (some ⟨"a.txt", [3]⟩) ("ghost")
    (by decide) (by decide)

/-- C2 counterexample: creating `docs`, which already exists in the
registry and holds a stored vector point, returns early with a warning
and leaves the state — including the stored point — completely
untouched: no vectors are wiped. -/
theorem C2_counterexample :
    create_collection sDocs1 (some ("docs")) (some ("d2")) 42 =
      (RouteAction.flash ("Collection already exists") ("warning"), sDocs1) ∧
    vsLookup sDocs1.vstore ("docs") = some [pt0] := by
  decide

/-- C2 (amended): create on a name already in the registry is idempotent
AND non-destructive — it returns early with a warning and changes
nothing, so the existing vector points survive.  The destructive
recreate runs only when the registry does not know the name: then the
registry gains the entry and the vector collection of that name is reset
to empty, wiping any pre-existing points of a same-named stray
collection. -/
theorem C2_amended_create_collection (s : AppState) (n : String) (d : Option String)
    (now : Nat) (hn : (n == "") = false) :
    (∀ e, findMeta s.registry n = some e →
      create_collection s (some n) d now =
        (RouteAction.flash ("Collection already exists") ("warning"), s)) ∧
    (findMeta s.registry n = none →
      (create_collection s (some n) d now).2.registry =
        s.registry ++ [⟨n, d.getD (""), now, 0⟩] ∧
      vsLookup (create_collection s (some n) d now).2.vstore n = some []) := by
  constructor
  · intro e he
    simp only [create_collection, falsy, hn, Bool.false_eq_true, if_false,
      Option.getD_some, he]
  · intro hnone
    simp only [create_collection, falsy, hn, Bool.false_eq_true, if_false,
      Option.getD_some, hnone]
    exact ⟨by simp, vsLookup_vsSetOrAdd_self _ n []⟩

/-- Witness for the amended C2: the existing-name path at `docs` (state
unchanged) and the fresh-name path at `fresh` (vector collection reset to
empty). -/
theorem C2_amended_witness :
    create_collection sDocs1 (some ("docs")) (some ("d2")) 42 =
      (RouteAction.flash ("Collection already exists") ("warning"), sDocs1) ∧
    vsLookup (create_collection sW (some ("fresh")) (some ("d")) 7).2.vstore
      ("fresh") = some [] :=
  ⟨(C2_amended_create_collection sDocs1 ("docs") (some ("d2")) 42 (by decide)).1
      (regEntry ("docs") 3) (by decide),
   ((C2_amended_create_collection sW ("fresh") (some ("d")) 7 (by decide)).2
      (by decide)).2⟩

/-- C3 counterexample: a non-UTF-8 text upload (byte 255) into the
registered collection `docs` raises an uncaught decode error out of the
`upload` route — ingestion failures are not caught at the operation
boundary. -/
theorem C3_counterexample :
    (upload envW sW (some ⟨"a.txt", [255]⟩) (some ("docs"))).action =
      RouteAction.uncaught ("UnicodeDecodeError") := by
  decide

/-- C3 (amended): clearing catches every failure at its boundary (it
always returns a flashed message, never an uncaught exception), and the
all-collections fan-out swallows per-collection search failures; but
ingestion has no boundary handler — a decode, embedding or upsert failure
propagates uncaught out of `upload` (see `C3_counterexample`) — and a
search-time embedding failure, raised before the try block, propagates
uncaught out of `index`. -/
theorem C3_amended_error_boundaries (env : Env) (s : AppState) (n q sel e : String)
    (hq : (q == "") = false) (hsel : (sel == "") = false)
    (hembed : env.embed [q] = .error e) :
    (∃ msg cat, (clear_collection s n).1 = RouteAction.flash msg cat) ∧
    (index env s (some q) (some sel)).outcome = SearchOutcome.uncaught e := by
  constructor
  · rw [clear_collection]
    cases vsLookup s.vstore n with
    | none => exact ⟨_, _, rfl⟩
    | some pts => exact ⟨_, _, rfl⟩
  · simp only [index, hq, hsel, Bool.or_self, Bool.false_eq_true, if_false, hembed]

/-- Witness for the amended C3: concrete clear of `docs` plus a concrete
search with a failing embedding service. -/
theorem C3_amended_witness :
    (∃ msg cat, (clear_collection sW ("docs")).1 = RouteAction.flash msg cat) ∧
    (index envEmbedDown sW (some ("q")) (some ("docs"))).outcome =
      SearchOutcome.uncaught ("embed down") :=
  C3_amended_error_boundaries envEmbedDown sW ("docs") ("q") ("docs")
    ("embed down") (by decide) (by decide) rfl

/-- C6: for a collection present in the vector store, clearing deletes
all its points without deleting the collection itself (the collection
binding remains, now empty), resets the registry docs_count of that
collection to 0 in the same operation, and an immediately following
scroll (`view_collection_points`) returns no points. -/
theorem C6_clear_resets (s : AppState) (c : String) (pts : List VPoint)
    (hv : vsLookup s.vstore c = some pts) :
    vsLookup (clear_collection s c).2.vstore c = some [] ∧
    view_collection_points (clear_collection s c).2 c = [] ∧
    findMeta (clear_collection s c).2.registry c =
      (findMeta s.registry c).map (fun e => { e with docs_count := 0 }) ∧
    (∀ e, findMeta (clear_collection s c).2.registry c = some e →
      e.docs_count = 0) := by
  have h1 : vsLookup (clear_collection s c).2.vstore c = some [] := by
    simp only [clear_collection, hv]
    exact vsLookup_vsSet_self c [] s.vstore (by simp [hv])
  have h3 : findMeta (clear_collection s c).2.registry c =
      (findMeta s.registry c).map (fun e => { e with docs_count := 0 }) := by
    simp only [clear_collection, hv]
    exact findMeta_updateFirst (fun e => { e with docs_count := 0 }) c
      (fun e => rfl) s.registry
  refine ⟨h1, ?_, h3, ?_⟩
  · rw [view_collection_points, h1]
    rfl
  · intro e he
    rw [h3] at he
    cases hm : findMeta s.registry c with
    | none => rw [hm] at he; cases he
    | some e0 =>
      rw [hm] at he
      injection he with h4
      rw [← h4]

/-- Witness for C6 at the concrete state `sDocs1` (collection `docs`
holds one point and has docs_count 3). -/
theorem C6_clear_resets_witness :
    vsLookup (clear_collection sDocs1 ("docs")).2.vstore ("docs") = some [] ∧
    view_collection_points (clear_collection sDocs1 ("docs")).2 ("docs") = [] ∧
    findMeta (clear_collection sDocs1 ("docs")).2.registry ("docs") =
      (findMeta sDocs1.registry ("docs")).map (fun e => { e with docs_count := 0 }) ∧
    (∀ e, findMeta (clear_collection sDocs1 ("docs")).2.registry ("docs") = some e →
      e.docs_count = 0) :=
  C6_clear_resets sDocs1 ("docs") [pt0] (by decide)

/-- C4: the registry increment executes only after the vector-store
upsert reports success.  On the success path up to the upsert: if the
upsert fails (the collection is missing from the vector store, the
failure mode of the underlying store), the upload fails with an uncaught
error and the registry is not mutated; if the upsert succeeds, the
upload flashes success and the docs_count of the collection goes up by
exactly the number of chunks indexed. -/
theorem C4_increment_after_upsert (env : Env) (s : AppState) (f : UploadFile)
    (c text : String) (vectors : List (List Rat)) (points : List VPoint)
    (hf0 : (f.filename == "") = false) (hc : (c == "") = false)
    (hall : allowed_file f.filename = true)
    (hex : extract_text env (env.securefn f.filename) f.content = some text)
    (hbl : isBlank text = false)
    (hem : env.embed (env.splitText text) = .ok vectors)
    (hbp : build_points c (env.securefn f.filename) (env.splitText text) vectors 0 =
      some points) :
    (vsLookup s.vstore c = none →
      (upload env s (some f) (some c)).action =
        RouteAction.uncaught ("qdrant: collection not found") ∧
      (upload env s (some f) (some c)).state.registry = s.registry) ∧
    (∀ old, vsLookup s.vstore c = some old →
      (upload env s (some f) (some c)).action =
        RouteAction.flash ("Uploaded and indexed " ++
          toString (env.splitText text).length ++ " chunks to collection " ++ c)
          ("success") ∧
      findMeta (upload env s (some f) (some c)).state.registry c =
        (findMeta s.registry c).map
          (fun e =>
            { e with docs_count := e.docs_count + (env.splitText text).length })) := by
  constructor
  · intro hv
    simp only [upload, hf0, Bool.false_eq_true, if_false, hc, hall,
      Bool.not_true, hex, hbl, hem, hbp, hv]
    exact ⟨by simp, by simp⟩
  · intro old hv
    simp only [upload, hf0, Bool.false_eq_true, if_false, hc, hall,
      Bool.not_true, hex, hbl, hem, hbp, hv]
    refine ⟨by simp, ?_⟩
    exact findMeta_updateFirst
      (fun e => { e with docs_count := e.docs_count + (env.splitText text).length })
      c (fun e => rfl) s.registry

/-- Witness for C4: both branches at concrete inputs — upserting into the
present collection `docs` (two chunks, docs_count goes up by 2) and into
the absent collection `nowhere` (uncaught failure, registry untouched). -/
theorem C4_increment_after_upsert_witness :
    ((upload envW sW (some ⟨"a.txt", [1]⟩) (some ("docs"))).action =
      RouteAction.flash ("Uploaded and indexed 2 chunks to collection docs")
        ("success") ∧
     findMeta (upload envW sW (some ⟨"a.txt", [1]⟩)
        (some ("docs"))).state.registry ("docs") =
      (findMeta sW.registry ("docs")).map
        (fun e => { e with docs_count := e.docs_count + 2 })) ∧
    ((upload envW sW (some ⟨"a.txt", [1]⟩) (some ("nowhere"))).action =
      RouteAction.uncaught ("qdrant: collection not found") ∧
     (upload envW sW (some ⟨"a.txt", [1]⟩)
        (some ("nowhere"))).state.registry = sW.registry) :=
  ⟨(C4_increment_after_upsert envW sW ⟨"a.txt", [1]⟩ ("docs") ("AB") [[1], [1]]
      [⟨0, [1], ⟨some ("a.txt"), some ("docs"), some ("A"), some ("A")⟩⟩,
       ⟨1, [1], ⟨some ("a.txt"), some ("docs"), some ("B"), some ("B")⟩⟩]
      (by decide) (by decide) (by decide) (by decide) (by decide) rfl
      (by decide)).2 [] (by decide),
   (C4_increment_after_upsert envW sW ⟨"a.txt", [1]⟩ ("nowhere") ("AB") [[1], [1]]
      [⟨0, [1], ⟨some ("a.txt"), some ("nowhere"), some ("A"), some ("A")⟩⟩,
       ⟨1, [1], ⟨some ("a.txt"), some ("nowhere"), some ("B"), some ("B")⟩⟩]
      (by decide) (by decide) (by decide) (by decide) (by decide) rfl
      (by decide)).1 (by decide)⟩

/-- C5: in all-collections mode with a truthy query, the query is embedded
exactly once and the one vector is shared across the per-collection
searches; every registered collection is searched with limit 5, so a
successful per-collection search contributes at most 5 hits; a failing
collection is swallowed — the merged raw results equal those computed from
only the collections whose search succeeds, so the fan-out is not
aborted; and the final outcome is a result list sorted by non-increasing
score with length at most 10. -/
theorem C5_all_collections_search (env : Env) (s : AppState) (q : String)
    (v : List Rat) (hq : (q == "") = false)
    (hembed : env.embed [q] = .ok [v]) :
    (index env s (some q) (some ("__all__"))).embedCalls = 1 ∧
    (index env s (some q) (some ("__all__"))).outcome =
      SearchOutcome.results
        ((sortDescBy (fun r => r.score)
          (all_search_raw env s.vstore s.registry v)).take 10) ∧
    (∀ cname hits, qdrantSearch env s.vstore cname v 5 = .ok hits →
      hits.length ≤ 5) ∧
    (all_search_raw env s.vstore s.registry v =
      all_search_raw env s.vstore (s.registry.filter (searchOk env s.vstore v)) v) ∧
    (∃ rs, (index env s (some q) (some ("__all__"))).outcome =
      SearchOutcome.results rs ∧ rs.length ≤ 10 ∧
      rs.Pairwise (fun a b => b.score ≤ a.score)) := by
  have hsel : (("__all__" : String) == "") = false := by decide
  have hred : index env s (some q) (some ("__all__")) =
      ⟨SearchOutcome.results ((sortDescBy (fun r => r.score)
        (all_search_raw env s.vstore s.registry v)).take 10), 1⟩ := by
    simp only [index, hq, hsel, Bool.or_self, Bool.false_eq_true, if_false, hembed]
    simp
  refine ⟨by rw [hred], by rw [hred], ?_,
    all_search_raw_filter_ok env s.vstore v s.registry, ?_⟩
  · intro cname hits h
    exact qdrantSearch_length_le env s.vstore cname v 5 hits h
  · refine ⟨_, by rw [hred], List.length_take_le 10 _, ?_⟩
    exact List.Pairwise.sublist (List.take_sublist 10 _) (pairwise_sortDescBy _ _)

/-- Witness for C5 at the three-collection state `sFanout`, whose
collection `gone` is registered but missing from the vector store. -/
theorem C5_all_collections_search_witness :
    (index envW sFanout (some ("q")) (some ("__all__"))).embedCalls = 1 ∧
    (∃ rs, (index envW sFanout (some ("q")) (some ("__all__"))).outcome =
      SearchOutcome.results rs ∧ rs.length ≤ 10 ∧
      rs.Pairwise (fun a b => b.score ≤ a.score)) :=
  ⟨(C5_all_collections_search envW sFanout ("q") [1] (by decide) rfl).1,
   (C5_all_collections_search envW sFanout ("q") [1] (by decide) rfl).2.2.2.2⟩

/-- C7: the points of one ingestion batch are assigned ids equal to their
0-based position in the batch — exactly the ids `0..n-1` — and, upsert
being last-write-wins per id within a collection, a second ingestion into
the same collection overwrites the points of the first ingestion at colliding
ids: concretely, uploading a two-chunk file into `docs` and then a
one-chunk file replaces the id-0 point of the first upload (its id-1 point
survives). -/
theorem C7_batch_ids_and_overwrite (c fn : String) (docs : List String)
    (vectors : List (List Rat)) (pts : List VPoint)
    (h : build_points c fn docs vectors 0 = some pts) :
    pts.map (fun p => p.id) = List.range vectors.length ∧
    vsLookup (upload envW
        (upload envW sW (some ⟨"a.txt", [1]⟩) (some ("docs"))).state
        (some ⟨"b.txt", [2]⟩) (some ("docs"))).state.vstore ("docs") =
      some [⟨1, [1], ⟨some ("a.txt"), some ("docs"), some ("B"), some ("B")⟩⟩,
            ⟨0, [1], ⟨some ("b.txt"), some ("docs"), some ("C"), some ("C")⟩⟩] := by
  constructor
  · rw [List.range_eq_range']
    exact build_points_ids c fn docs vectors 0 pts h
  · decide

/-- Witness for C7 at a concrete two-chunk batch. -/
theorem C7_batch_ids_and_overwrite_witness :
    ([⟨0, [1], ⟨some ("a.txt"), some ("docs"), some ("A"), some ("A")⟩⟩,
      ⟨1, [1], ⟨some ("a.txt"), some ("docs"), some ("B"), some ("B")⟩⟩] :
        List VPoint).map (fun p => p.id) = List.range 2 ∧
    vsLookup (upload envW
        (upload envW sW (some ⟨"a.txt", [1]⟩) (some ("docs"))).state
        (some ⟨"b.txt", [2]⟩) (some ("docs"))).state.vstore ("docs") =
      some [⟨1, [1], ⟨some ("a.txt"), some ("docs"), some ("B"), some ("B")⟩⟩,
            ⟨0, [1], ⟨some ("b.txt"), some ("docs"), some ("C"), some ("C")⟩⟩] :=
  C7_batch_ids_and_overwrite ("docs") ("a.txt") ["A", "B"] [[1], [1]]
    [⟨0, [1], ⟨some ("a.txt"), some ("docs"), some ("A"), some ("A")⟩⟩,
     ⟨1, [1], ⟨some ("a.txt"), some ("docs"), some ("B"), some ("B")⟩⟩]
    (by decide)

/-- C8 counterexample: a hit whose payload is missing `chunk` but has
`page_content` = "old text" produces a SearchResult whose chunk is
"old text", not the claimed literal "N/A". -/
theorem C8_counterexample :
    (index envW sLegacy (some ("q")) (some ("legacy"))).outcome =
      SearchOutcome.results [⟨1, "f.txt", "legacy", "old text"⟩] ∧
    legacyPayload.chunk = none ∧ ("old text" : String) ≠ ("N/A") := by
  decide

/-- C8 (amended): a missing `source` is substituted with "N/A"; a missing
`chunk`, however, first falls back to the `page_content` value of the payload,
and "N/A" is substituted only when `page_content` is missing too.  Both
search modes map raw hits through the same `hit_to_result` (the
single-collection outcome is the raw hits mapped with collection default
"N/A"; the fan-out of `all_search_raw` maps them with the searched
name of the searched collection as default). -/
theorem C8_amended_missing_payload_defaults (env : Env) (s : AppState)
    (q sel : String) (v : List Rat) (hits : List Hit) (h : Hit) (d t : String)
    (hq : (q == "") = false) (hsel : (sel == "") = false)
    (hne : (sel == "__all__") = false)
    (hembed : env.embed [q] = .ok [v])
    (hsearch : qdrantSearch env s.vstore sel v 10 = .ok hits) :
    (index env s (some q) (some sel)).outcome =
      SearchOutcome.results (hits.map (hit_to_result ("N/A"))) ∧
    (h.payload.source = none → (hit_to_result d h).source = ("N/A")) ∧
    (h.payload.chunk = none → h.payload.page_content = none →
      (hit_to_result d h).chunk = ("N/A")) ∧
    (h.payload.chunk = none → h.payload.page_content = some t →
      (hit_to_result d h).chunk = t) := by
  refine ⟨?_, ?_, ?_, ?_⟩
  · simp only [index, hq, hsel, Bool.or_self, Bool.false_eq_true, if_false,
      hembed, hne, hsearch]
  · intro hs
    simp [hit_to_result, hs]
  · intro hc hp
    simp [hit_to_result, hc, hp]
  · intro hc hp
    simp [hit_to_result, hc, hp]

/-- Witness for the amended C8 at the legacy-payload state. -/
theorem C8_amended_witness :
    (index envW sLegacy (some ("q")) (some ("legacy"))).outcome =
      SearchOutcome.results
        ([⟨0, 1, legacyPayload⟩].map (hit_to_result ("N/A"))) ∧
    (legacyPayload.source = none →
      (hit_to_result ("N/A") ⟨0, 1, legacyPayload⟩).source = ("N/A")) ∧
    (legacyPayload.chunk = none → legacyPayload.page_content = none →
      (hit_to_result ("N/A") ⟨0, 1, legacyPayload⟩).chunk = ("N/A")) ∧
    (legacyPayload.chunk = none → legacyPayload.page_content = some ("old text") →
      (hit_to_result ("N/A") ⟨0, 1, legacyPayload⟩).chunk = ("old text")) :=
  C8_amended_missing_payload_defaults envW sLegacy ("q") ("legacy") [1]
    [⟨0, 1, legacyPayload⟩] ⟨0, 1, legacyPayload⟩ ("N/A") ("old text")
    (by decide) (by decide) (by decide) rfl rfl

/-- C10: on the successful ingestion path, every point of the upserted
batch carries a payload with all four keys present: `source` is the
sanitized upload filename, `collection` is the target collection name,
and `chunk` and `page_content` hold the identical chunk text; the vector
store is updated with exactly this batch upserted over the old points. -/
theorem C10_payload_shape (env : Env) (s : AppState) (f : UploadFile)
    (c text : String) (vectors : List (List Rat)) (points : List VPoint)
    (old : List VPoint)
    (hf0 : (f.filename == "") = false) (hc : (c == "") = false)
    (hall : allowed_file f.filename = true)
    (hex : extract_text env (env.securefn f.filename) f.content = some text)
    (hbl : isBlank text = false)
    (hem : env.embed (env.splitText text) = .ok vectors)
    (hbp : build_points c (env.securefn f.filename) (env.splitText text) vectors 0 =
      some points)
    (hv : vsLookup s.vstore c = some old) :
    (upload env s (some f) (some c)).state.vstore =
      vsSet c (upsertPoints old points) s.vstore ∧
    ∀ p ∈ points, ∃ t, t ∈ env.splitText text ∧
      p.payload = { source := some (env.securefn f.filename),
                    collection := some c, chunk := some t,
                    page_content := some t } := by
  constructor
  · simp only [upload, hf0, Bool.false_eq_true, if_false, hc, hall,
      Bool.not_true, hex, hbl, hem, hbp, hv]
  · exact build_points_payload c (env.securefn f.filename) (env.splitText text)
      vectors 0 points hbp

/-- Witness for C10 at the concrete two-chunk upload into `docs`. -/
theorem C10_payload_shape_witness :
    (upload envW sW (some ⟨"a.txt", [1]⟩) (some ("docs"))).state.vstore =
      vsSet ("docs") (upsertPoints []
        [⟨0, [1], ⟨some ("a.txt"), some ("docs"), some ("A"), some ("A")⟩⟩,
         ⟨1, [1], ⟨some ("a.txt"), some ("docs"), some ("B"), some ("B")⟩⟩])
        sW.vstore ∧
    ∀ p ∈ ([⟨0, [1], ⟨some ("a.txt"), some ("docs"), some ("A"), some ("A")⟩⟩,
            ⟨1, [1], ⟨some ("a.txt"), some ("docs"), some ("B"), some ("B")⟩⟩] :
      List VPoint), ∃ t, t ∈ envW.splitText ("AB") ∧
      p.payload = { source := some (envW.securefn ("a.txt")),
                    collection := some ("docs"), chunk := some t,
                    page_content := some t } :=
  C10_payload_shape envW sW ⟨"a.txt", [1]⟩ ("docs") ("AB") [[1], [1]]
    [⟨0, [1], ⟨some ("a.txt"), some ("docs"), some ("A"), some ("A")⟩⟩,
     ⟨1, [1], ⟨some ("a.txt"), some ("docs"), some ("B"), some ("B")⟩⟩]
    [] (by decide) (by decide) (by decide) (by decide) (by decide) rfl
    (by decide) (by decide)
